import Mathlib

/-!
Verification development for the VG5000µ emulator sources
(`chips/ef9345.h`, `vg5000.h`, `cass_vg5000.h`).

The C sources are shallowly embedded: machine integers become `Nat`
(with explicit masking where the C code masks or where overflow can
occur), byte buffers become functions `Nat → Nat`, structs become
Lean structures, and each C function becomes a Lean function of the
same name.
-/

/-! ### Generic bit-arithmetic helpers -/

/-- Oring a value below `2 ^ k` into a value shifted left by `k` is addition
(the two summands occupy disjoint bit ranges). -/
theorem lor_shiftLeft_eq_add {k a : Nat} (m : Nat) (h : a < 2 ^ k) :
    a ||| (m <<< k) = m <<< k + a := by
  rw [Nat.shiftLeft_eq]
  induction k generalizing a m with
  | zero =>
    have ha : a = 0 := by omega
    subst ha
    simp
  | succ k ih =>
    have hd : Nat.bit (Nat.bodd a) (Nat.div2 a) = a := Nat.bit_decomp a
    have hval : a = 2 * Nat.div2 a + (Nat.bodd a).toNat := by
      have hv := Nat.bit_val (Nat.bodd a) (Nat.div2 a)
      rw [hd] at hv
      exact hv
    have hpow : m * 2 ^ (k + 1) = 2 * (m * 2 ^ k) := by ring
    have hdiv : Nat.div2 a < 2 ^ k := by
      have h2 : (2 : Nat) ^ (k + 1) = 2 * 2 ^ k := by ring
      rcases hb : Nat.bodd a <;> rw [hb] at hval <;> simp at hval <;> omega
    have hm : Nat.bit false (m * 2 ^ k) = m * 2 ^ (k + 1) := by
      rw [Nat.bit_val]
      simp
      ring
    calc a ||| m * 2 ^ (k + 1)
        = Nat.bit (Nat.bodd a) (Nat.div2 a) ||| Nat.bit false (m * 2 ^ k) := by
          rw [hd, hm]
      _ = Nat.bit (Nat.bodd a || false) (Nat.div2 a ||| m * 2 ^ k) := by
          rw [Nat.lor_bit]
      _ = Nat.bit (Nat.bodd a) (m * 2 ^ k + Nat.div2 a) := by
          rw [Bool.or_false, ih _ hdiv]
      _ = m * 2 ^ (k + 1) + a := by
          rw [Nat.bit_val]
          omega

/-- Extracting a single pin bit: masking with `1 <<< k` then shifting right by
`k` is the same as shifting right then masking with 1. -/
theorem and_shiftLeft_one_shiftRight (p k : Nat) :
    (p &&& (1 <<< k)) >>> k = (p >>> k) &&& 1 := by
  apply Nat.eq_of_testBit_eq
  intro j
  have h1 : (1 : Nat) <<< k = 2 ^ k := by
    simp [Nat.shiftLeft_eq]
  rw [h1]
  simp only [Nat.testBit_shiftRight, Nat.testBit_and, Nat.testBit_two_pow]
  have h3 : Nat.testBit 1 j = decide ((0 : Nat) = j) := by
    have h10 : (1 : Nat) = 2 ^ 0 := rfl
    rw [h10, Nat.testBit_two_pow]
  rw [h3]
  congr 1
  simp only [decide_eq_decide]
  omega

/-! ### EF9345 display processor (chips/ef9345.h) -/

def EF9345_FRAMEBUFFER_WIDTH : Nat := 320
def EF9345_FRAMEBUFFER_HEIGHT : Nat := 250
def EF9345_FRAMEBUFFER_SIZE : Nat := EF9345_FRAMEBUFFER_WIDTH * EF9345_FRAMEBUFFER_HEIGHT
def EF9345_FREQUENCY : Nat := 12000000

/-- `_ef9345_transcode_physical_address` from chips/ef9345.h: datasheet
bit-interleaving of a (column `x`, row `y`, block bit `b0`) triple.  The C
`~x` complement on the promoted value is only observed through the mask
`0b110000`, embedded here as `x ^^^ 0xFFFF`. -/
def _ef9345_transcode_physical_address (x y b0 : Nat) : Nat :=
  if 8 ≤ y then
    (b0 <<< 10) |||
      (if x &&& 0b100000 ≠ 0 then
        ((y &&& 0b111) <<< 5) ||| (y &&& 0b11000)
      else
        (x &&& 0b11000) ||| ((y &&& 0b11111) <<< 5))
  else
    if y &&& 1 ≠ 0 then
      let not_x4and5 := ((x ^^^ 0xFFFF) &&& 0b110000) >>> 1
      ((1 <<< 7) ||| not_x4and5) |||
        (if b0 = 0 then (x &&& 0b1000) <<< 7 else 1 <<< 10)
    else
      (b0 <<< 10) ||| ((x &&& 0b111000) <<< 2)

/-- `_ef9345_triplet_to_physical_address` from chips/ef9345.h. -/
def _ef9345_triplet_to_physical_address (x y z : Nat) : Nat :=
  let transcoded := _ef9345_transcode_physical_address (x &&& 0x3f) (y &&& 0x1f) (z &&& 1)
  let low_x := x &&& 0x07
  let high_z := z &&& 0b1110
  (low_x ||| transcoded) ||| (high_z <<< 10)

/-- Left inverse of the transcoding on the bulk rows (8 ≤ y < 32): recovers
(column, row, block bit) from a plane-local physical offset. -/
def transcodeBulkDecode (a : Nat) : Nat × Nat × Nat :=
  let m := (a >>> 5) &&& 0b11111
  if 8 ≤ m then
    (a &&& 0b11111, m, (a >>> 10) &&& 1)
  else
    (0b100000 ||| (a &&& 0b111), ((a >>> 5) &&& 0b111) ||| (a &&& 0b11000), (a >>> 10) &&& 1)

theorem transcode_bulk_decode_encode :
    ∀ x < 40, ∀ y, 8 ≤ y → y < 32 → ∀ b0 < 2,
      transcodeBulkDecode (_ef9345_triplet_to_physical_address x y b0) = (x, y, b0) := by
  decide

theorem triplet_offset_lt_2048 :
    ∀ x < 40, ∀ y < 32, ∀ b0 < 2, _ef9345_triplet_to_physical_address x y b0 < 2048 := by
  decide

theorem plane_bit_split :
    ∀ p < 8, ∀ b < 2,
      (2 * p + b) &&& 1 = b ∧ (2 * p + b) &&& 0b1110 = 2 * p ∧ b &&& 0b1110 = 0 ∧
      b &&& 1 = b := by
  decide

/-- Splitting a triplet address into its plane component (`z` bits 1–3) and the
plane-local offset. -/
theorem triplet_plane_split :
    ∀ p < 8, ∀ b < 2, ∀ x < 40, ∀ y < 32,
      _ef9345_triplet_to_physical_address x y (2 * p + b)
        = p <<< 11 + _ef9345_triplet_to_physical_address x y b := by
  intro p hp b hb x hx y hy
  obtain ⟨hz1, hz2, hz3, hz4⟩ := plane_bit_split p hp b hb
  have hbound : _ef9345_triplet_to_physical_address x y b < 2 ^ 11 :=
    triplet_offset_lt_2048 x hx y hy b hb
  have hshift : (2 * p) <<< 10 = p <<< 11 := by
    rw [Nat.shiftLeft_eq, Nat.shiftLeft_eq]
    ring
  simp only [_ef9345_triplet_to_physical_address, hz1, hz2, hz3, hz4] at *
  simp only [Nat.zero_shiftLeft, Nat.or_zero] at hbound ⊢
  rw [hshift]
  exact lor_shiftLeft_eq_add p hbound

/-- C1 counterexample: the two valid triples (column 0, row 0, block 0) and
(column 0, row 2, block 0) lie in the same addressing plane (z = 0), are
distinct, and are mapped to the same physical offset — the transcoding drops
the row bits of even rows below 8. -/
theorem claim_C1_counterexample :
    _ef9345_triplet_to_physical_address 0 0 0 = _ef9345_triplet_to_physical_address 0 2 0 ∧
    ((0 : Nat), (0 : Nat), (0 : Nat)) ≠ ((0 : Nat), (2 : Nat), (0 : Nat)) ∧
    (0 : Nat) < 40 ∧ (0 : Nat) < 32 ∧ (2 : Nat) < 32 ∧ (0 : Nat) < 2 := by
  decide

/-- C1 (amended): for every column x < 40, row y < 32 and block bit b0, the
transcoded address is a physical offset below the 8 KiB video-RAM size (in
fact below 2 KiB); distinct triples within the same addressing plane map to
distinct offsets provided their rows lie in the bulk region 8 ≤ y < 32 (for
rows below 8 the transcoding is not injective). -/
theorem claim_C1 :
    (∀ x < 40, ∀ y < 32, ∀ b0 < 2,
      _ef9345_triplet_to_physical_address x y b0 < 8192) ∧
    (∀ p < 8, ∀ x₁ < 40, ∀ y₁, 8 ≤ y₁ → y₁ < 32 → ∀ b₁ < 2,
      ∀ x₂ < 40, ∀ y₂, 8 ≤ y₂ → y₂ < 32 → ∀ b₂ < 2,
      _ef9345_triplet_to_physical_address x₁ y₁ (2 * p + b₁) =
        _ef9345_triplet_to_physical_address x₂ y₂ (2 * p + b₂) →
      x₁ = x₂ ∧ y₁ = y₂ ∧ b₁ = b₂) := by
  constructor
  · intro x hx y hy b0 hb0
    have h := triplet_offset_lt_2048 x hx y hy b0 hb0
    omega
  · intro p hp x₁ hx₁ y₁ hy₁a hy₁b b₁ hb₁ x₂ hx₂ y₂ hy₂a hy₂b b₂ hb₂ heq
    rw [triplet_plane_split p hp b₁ hb₁ x₁ hx₁ y₁ (by omega),
        triplet_plane_split p hp b₂ hb₂ x₂ hx₂ y₂ (by omega)] at heq
    have h1 : _ef9345_triplet_to_physical_address x₁ y₁ b₁ =
        _ef9345_triplet_to_physical_address x₂ y₂ b₂ := by omega
    have hd1 := transcode_bulk_decode_encode x₁ hx₁ y₁ hy₁a hy₁b b₁ hb₁
    have hd2 := transcode_bulk_decode_encode x₂ hx₂ y₂ hy₂a hy₂b b₂ hb₂
    rw [h1, hd2] at hd1
    have h2 : x₂ = x₁ ∧ y₂ = y₁ ∧ b₂ = b₁ := by
      simpa [Prod.ext_iff] using hd1
    exact ⟨h2.1.symm, h2.2.1.symm, h2.2.2.symm⟩

/-- Witness for C1: both parts applied at concrete valid inputs. -/
theorem claim_C1_witness :
    _ef9345_triplet_to_physical_address 5 9 1 < 8192 ∧
    (_ef9345_triplet_to_physical_address 3 10 1 = _ef9345_triplet_to_physical_address 3 10 1 →
      (3 : Nat) = 3 ∧ (10 : Nat) = 10 ∧ (1 : Nat) = 1) :=
  ⟨claim_C1.1 5 (by decide) 9 (by decide) 1 (by decide),
   fun h => claim_C1.2 0 (by decide) 3 (by decide) 10 (by decide) (by decide) 1 (by decide)
     3 (by decide) 10 (by decide) (by decide) 1 (by decide) h⟩

/-! ### EF9345 register file and command execution -/

/-- One character triplet of the row buffer (`ef945_char_triplet_t`). -/
structure ef945_char_triplet_t where
  a : Nat
  b : Nat
  c : Nat
deriving DecidableEq

/-- The `ef9345_t` state, restricted to the fields the emulator logic under
verification reads or writes.  Byte registers hold values below 256; buffers
are embedded as functions from index to stored byte. -/
structure ef9345_t where
  direct_r0 : Nat
  direct_r1 : Nat
  direct_r2 : Nat
  direct_r3 : Nat
  direct_r4 : Nat
  direct_r5 : Nat
  direct_r6 : Nat
  direct_r7 : Nat
  indirect_rom : Nat
  indirect_tgs : Nat
  indirect_mat : Nat
  indirect_pat : Nat
  indirect_dor : Nat
  indirect_xxx_5 : Nat
  indirect_xxx_6 : Nat
  indirect_ror : Nat
  ram : Nat → Nat
  rom : Nat → Nat
  line_tick : Nat
  current_line : Nat
  interlaced : Bool
  lines_per_frame : Nat
  char_code : Nat
  block_origin : Nat
  origin_row_yor : Nat
  row_buffer : Nat → ef945_char_triplet_t
  quadrant_buffer : Nat → Nat
  latest_loaded_row_line : Nat
  latest_rendered_column : Nat
  fb : Nat → Nat

/-- Reading the indirect register file through its array alias
(`indirect_regs[i]`); the code only indexes with `i = param & 7 < 8`. -/
def indirect_regs_get (st : ef9345_t) (i : Nat) : Nat :=
  match i with
  | 0 => st.indirect_rom
  | 1 => st.indirect_tgs
  | 2 => st.indirect_mat
  | 3 => st.indirect_pat
  | 4 => st.indirect_dor
  | 5 => st.indirect_xxx_5
  | 6 => st.indirect_xxx_6
  | 7 => st.indirect_ror
  | _ + 8 => 0

/-- Writing the indirect register file through its array alias. -/
def indirect_regs_set (st : ef9345_t) (i v : Nat) : ef9345_t :=
  match i with
  | 0 => { st with indirect_rom := v }
  | 1 => { st with indirect_tgs := v }
  | 2 => { st with indirect_mat := v }
  | 3 => { st with indirect_pat := v }
  | 4 => { st with indirect_dor := v }
  | 5 => { st with indirect_xxx_5 := v }
  | 6 => { st with indirect_xxx_6 := v }
  | 7 => { st with indirect_ror := v }
  | _ + 8 => st

/-- Modelled from the spec: the Memory Router (`mem.h`, an external
collaborator per §6) with the EF9345 video-RAM mapping of
`_ef9345_init_memory_map`: 8 KiB of RAM mapped at 0x0000-0x1FFF; reads of
unmapped addresses return 0xFF, writes to unmapped addresses are dropped. -/
def mem_rd (ram : Nat → Nat) (addr : Nat) : Nat :=
  if addr < 0x2000 then ram addr else 0xFF

/-- Modelled from the spec: Memory Router write, see `mem_rd`. -/
def mem_wr (ram : Nat → Nat) (addr v : Nat) : Nat → Nat :=
  if addr < 0x2000 then fun i => if i = addr then v else ram i else ram

/-- `_ef9345_mp_to_physical_address` from chips/ef9345.h. -/
def _ef9345_mp_to_physical_address (st : ef9345_t) : Nat :=
  let x := st.direct_r7 &&& 0x3f
  let y := st.direct_r6 &&& 0x1f
  let b0 := (st.direct_r7 &&& 0x80) >>> 7
  let transcoded := _ef9345_transcode_physical_address x y b0
  let low_x := x &&& 0x07
  let high_z := ((st.direct_r7 &&& 0x40) >>> 6) |||
                ((st.direct_r6 &&& 0x20) >>> 4) |||
                ((st.direct_r6 &&& 0x80) >>> 5)
  (low_x ||| transcoded) ||| (high_z <<< 11)

/-- `_ef9345_ap_to_physical_address` from chips/ef9345.h (note: the third
component of `high_z` reads `direct_r6`, exactly as the source does). -/
def _ef9345_ap_to_physical_address (st : ef9345_t) : Nat :=
  let x := st.direct_r5 &&& 0x3f
  let y := st.direct_r4 &&& 0x1f
  let b0_prime := (st.direct_r5 &&& 0x80) >>> 7
  let transcoded := _ef9345_transcode_physical_address x y b0_prime
  let low_x := x &&& 0x07
  let high_z := ((st.direct_r5 &&& 0x40) >>> 6) |||
                ((st.direct_r4 &&& 0x20) >>> 4) |||
                ((st.direct_r6 &&& 0x40) >>> 4)
  (low_x ||| transcoded) ||| (high_z <<< 11)

/-- `_ef9345_incr_mp_y` from chips/ef9345.h. -/
def _ef9345_incr_mp_y (st : ef9345_t) : ef9345_t :=
  let y := st.direct_r6 &&& 0x1f
  let y := y + 1
  let y := if y > 31 then y - 24 else y
  { st with direct_r6 := (st.direct_r6 &&& 0xe0) ||| y }

/-- `_ef9345_incr_mp_x` from chips/ef9345.h. -/
def _ef9345_incr_mp_x (st : ef9345_t) (increment_y : Bool) : ef9345_t :=
  let x := st.direct_r7 &&& 0x3f
  let x := (x + 1) % 40
  let st := { st with direct_r7 := (st.direct_r7 &&& 0xc0) ||| x }
  if x = 0 ∧ increment_y = true then _ef9345_incr_mp_y st else st

/-- `_ef9345_incr_ap_x` from chips/ef9345.h, translated exactly: it reads the
auxiliary-pointer column from `direct_r5` but stores the incremented value
into `direct_r7`. -/
def _ef9345_incr_ap_x (st : ef9345_t) : ef9345_t :=
  let x := st.direct_r5 &&& 0x3f
  let x := (x + 1) % 40
  { st with direct_r7 := (st.direct_r7 &&& 0xc0) ||| x }

/-- `_ef9345_recompute_configuration` from chips/ef9345.h, translated exactly:
the lines-per-frame condition is the source's `indirect_tgs & 0`. -/
def _ef9345_recompute_configuration (st : ef9345_t) : ef9345_t :=
  { st with
    lines_per_frame := if st.indirect_tgs &&& 0 ≠ 0 then 312 else 262
    interlaced := st.indirect_tgs &&& 1 ≠ 0
    char_code := ((st.indirect_tgs >>> 6) &&& 0x03) ||| ((st.indirect_pat >>> 5) &&& 0x04)
    block_origin := (st.indirect_ror &&& 0b11100000) >>> 4
    origin_row_yor := st.indirect_ror &&& 0b11111 }

/-- `_ef9345_start_execute_command` from chips/ef9345.h.  The unimplemented
opcodes only log (`printf`) in the source, and the impossible opcodes hit
`CHIPS_ASSERT`; both leave the state unchanged here (NDEBUG semantics). -/
def _ef9345_start_execute_command (st : ef9345_t) : ef9345_t :=
  let command_code := st.direct_r0 &&& 0xF0
  let command_param := st.direct_r0 &&& 0x0F
  if command_code = 0x00 then
    -- KRx / CLF / CLG
    if command_param &&& 0x06 = 0x02 then
      -- KRG
      let is_read := command_param &&& 0x08 ≠ 0
      let auto_incr := command_param &&& 0x01 ≠ 0
      let address := _ef9345_mp_to_physical_address st
      let st :=
        if is_read then
          { st with direct_r1 := mem_rd st.ram address,
                    direct_r2 := mem_rd st.ram (address + 0x0400) }
        else
          { st with ram := mem_wr (mem_wr st.ram address st.direct_r1)
                             (address + 0x0400) st.direct_r2 }
      if auto_incr then _ef9345_incr_mp_x st false else st
    else
      st -- KRF / CLF / CLG: unimplemented, log only
  else if command_code = 0x30 then
    -- OCT
    let is_read := command_param &&& 0x08 ≠ 0
    let is_aux := command_param &&& 0x04 ≠ 0
    let auto_incr := command_param &&& 0x01 ≠ 0
    let address := if is_aux then _ef9345_ap_to_physical_address st
                   else _ef9345_mp_to_physical_address st
    let st :=
      if is_read then { st with direct_r1 := mem_rd st.ram address }
      else { st with ram := mem_wr st.ram address st.direct_r1 }
    if auto_incr then
      if is_aux then _ef9345_incr_ap_x st else _ef9345_incr_mp_x st true
    else st
  else if command_code = 0x80 then
    -- IND
    let reg_num := command_param &&& 0x07
    let is_read := command_param &&& 0x08 ≠ 0
    let st :=
      if is_read then { st with direct_r1 := indirect_regs_get st reg_num }
      else indirect_regs_set st reg_num st.direct_r1
    _ef9345_recompute_configuration st
  else if command_code = 0xB0 then
    -- INY
    _ef9345_incr_mp_y st
  else
    st -- KRE/KRV/KRC/KRL/EXP/CMP/VSM/MVB/MVD/MVT: unimplemented, log only;
       -- 0xA0/0xC0: CHIPS_ASSERT(0)

/-- An `ef9345_t` with every field zeroed (the `memset` of `ef9345_init`). -/
def ef9345_zero_state : ef9345_t :=
  { direct_r0 := 0, direct_r1 := 0, direct_r2 := 0, direct_r3 := 0,
    direct_r4 := 0, direct_r5 := 0, direct_r6 := 0, direct_r7 := 0,
    indirect_rom := 0, indirect_tgs := 0, indirect_mat := 0, indirect_pat := 0,
    indirect_dor := 0, indirect_xxx_5 := 0, indirect_xxx_6 := 0, indirect_ror := 0,
    ram := fun _ => 0, rom := fun _ => 0,
    line_tick := 0, current_line := 0,
    interlaced := false, lines_per_frame := 0,
    char_code := 0, block_origin := 0, origin_row_yor := 0,
    row_buffer := fun _ => ⟨0, 0, 0⟩, quadrant_buffer := fun _ => 0,
    latest_loaded_row_line := 0, latest_rendered_column := 0,
    fb := fun _ => 0 }

/-- C4: the source computes `lines_per_frame` from `indirect_tgs & 0`, which
is always zero, so the cached value is 262 for every register file — no TGS
value yields 312.  The second part evaluates the code at the failing input:
an IND command writing 0xFF (all TGS bits set) into the TGS register still
caches 262 lines per frame. -/
theorem claim_C4_code_bug :
    (∀ st : ef9345_t, (_ef9345_recompute_configuration st).lines_per_frame = 262) ∧
    ((_ef9345_start_execute_command
        { ef9345_zero_state with direct_r0 := 0x81, direct_r1 := 0xFF }).indirect_tgs = 0xFF ∧
      (_ef9345_start_execute_command
        { ef9345_zero_state with direct_r0 := 0x81, direct_r1 := 0xFF }).lines_per_frame = 262) := by
  refine ⟨fun st => ?_, by decide, by decide⟩
  simp [_ef9345_recompute_configuration]

/-- C6: `_ef9345_incr_ap_x` never updates `direct_r5`, and the OCT
auxiliary-pointer write with auto-increment (R0 = 0x35) instead stores the
incremented auxiliary column into `direct_r7`: from R5 = 3, R7 = 0x12 the
command leaves R5 = 3 and sets R7 = 4. -/
theorem claim_C6_code_bug :
    (∀ st : ef9345_t, (_ef9345_incr_ap_x st).direct_r5 = st.direct_r5) ∧
    ((_ef9345_start_execute_command
        { ef9345_zero_state with direct_r0 := 0x35, direct_r1 := 0xAB, direct_r5 := 3, direct_r6 := 0x11, direct_r7 := 0x12 }).direct_r5 = 3 ∧
      (_ef9345_start_execute_command
        { ef9345_zero_state with direct_r0 := 0x35, direct_r1 := 0xAB, direct_r5 := 3, direct_r6 := 0x11, direct_r7 := 0x12 }).direct_r7 = 4 ∧
      (_ef9345_start_execute_command
        { ef9345_zero_state with direct_r0 := 0x35, direct_r1 := 0xAB, direct_r5 := 3, direct_r6 := 0x11, direct_r7 := 0x12 }).direct_r6 = 0x11) := by
  exact ⟨fun st => rfl, by decide, by decide, by decide⟩

set_option maxRecDepth 4096 in
theorem incr_mp_col_aux :
    ∀ b < 256,
      ((b &&& 0xc0) ||| (((b &&& 0x3f) + 1) % 40)) &&& 0x3f = ((b &&& 0x3f) + 1) % 40 ∧
      ((b &&& 0xc0) ||| (((b &&& 0x3f) + 1) % 40)) >>> 6 = b >>> 6 ∧
      ((((b &&& 0x3f) + 1) % 40 = 0) ↔ (b &&& 0x3f = 39)) := by
  decide

set_option maxRecDepth 4096 in
theorem incr_mp_row_aux :
    ∀ a < 256,
      ((a &&& 0xe0) |||
          (if (a &&& 0x1f) + 1 > 31 then (a &&& 0x1f) + 1 - 24 else (a &&& 0x1f) + 1)) &&& 0x1f
        = (if a &&& 0x1f = 31 then 8 else (a &&& 0x1f) + 1) ∧
      ((a &&& 0xe0) |||
          (if (a &&& 0x1f) + 1 > 31 then (a &&& 0x1f) + 1 - 24 else (a &&& 0x1f) + 1)) >>> 5
        = a >>> 5 := by
  decide

/-- C5: one auto-increment step of the memory pointer increments the column
in R7 modulo 40; when row-carry is requested and the column wraps from 39 to
0, the row in R6 is incremented, wrapping from 31 to 8; the high bits of R6
(bits 5–7) and R7 (bits 6–7) are unchanged, and R6 is untouched when no
carry fires. -/
theorem claim_C5 :
    ∀ (st : ef9345_t) (increment_y : Bool),
      st.direct_r6 < 256 → st.direct_r7 < 256 →
      ((_ef9345_incr_mp_x st increment_y).direct_r7 &&& 0x3f
          = ((st.direct_r7 &&& 0x3f) + 1) % 40) ∧
      ((_ef9345_incr_mp_x st increment_y).direct_r7 >>> 6 = st.direct_r7 >>> 6) ∧
      ((increment_y = true ∧ st.direct_r7 &&& 0x3f = 39) →
        ((_ef9345_incr_mp_x st increment_y).direct_r6 &&& 0x1f
            = if st.direct_r6 &&& 0x1f = 31 then 8 else (st.direct_r6 &&& 0x1f) + 1) ∧
        ((_ef9345_incr_mp_x st increment_y).direct_r6 >>> 5 = st.direct_r6 >>> 5)) ∧
      ((increment_y = false ∨ st.direct_r7 &&& 0x3f ≠ 39) →
        (_ef9345_incr_mp_x st increment_y).direct_r6 = st.direct_r6) := by
  intro st increment_y h6 h7
  obtain ⟨hc1, hc2, hc3⟩ := incr_mp_col_aux st.direct_r7 h7
  obtain ⟨hr1, hr2⟩ := incr_mp_row_aux st.direct_r6 h6
  by_cases hw : ((st.direct_r7 &&& 0x3f) + 1) % 40 = 0 ∧ increment_y = true
  · have h39 : st.direct_r7 &&& 0x3f = 39 := hc3.mp hw.1
    simp only [_ef9345_incr_mp_x, _ef9345_incr_mp_y, if_pos hw]
    refine ⟨hc1, hc2, fun _ => ⟨hr1, hr2⟩, fun hcontra => ?_⟩
    rcases hcontra with hf | hne
    · rw [hw.2] at hf
      cases hf
    · exact absurd h39 hne
  · simp only [_ef9345_incr_mp_x, _ef9345_incr_mp_y, if_neg hw]
    refine ⟨hc1, hc2, fun hcar => ?_, fun _ => trivial⟩
    exact absurd ⟨hc3.mpr hcar.2, hcar.1⟩ hw

/-- Witness for C5: the increment applied at R6 = 0x5f (row 31), R7 = 0x67
(column 39) with row-carry requested. -/
theorem claim_C5_witness :
    ((_ef9345_incr_mp_x { ef9345_zero_state with direct_r6 := 0x5f, direct_r7 := 0x67 } true).direct_r7 &&& 0x3f
        = ((0x67 &&& 0x3f) + 1) % 40) ∧
    ((_ef9345_incr_mp_x { ef9345_zero_state with direct_r6 := 0x5f, direct_r7 := 0x67 } true).direct_r6 &&& 0x1f = 8) := by
  have h := claim_C5 { ef9345_zero_state with direct_r6 := 0x5f, direct_r7 := 0x67 } true
    (by decide) (by decide)
  refine ⟨h.1, ?_⟩
  have h2 := (h.2.2.1 (by decide)).1
  rw [h2]
  decide

/-! ### EF9345 raster/render pipeline -/

-- timing constants from chips/ef9345.h
def tick_per_line : Nat := EF9345_FREQUENCY / 1000000 * 64
def tick_hblank_start : Nat := EF9345_FREQUENCY / 1000000 * 10
def tick_for_1mus : Nat := EF9345_FREQUENCY / 1000000

def EF9345_PIN_HVS_HS : Nat := 15
def EF9345_PIN_PC_VS : Nat := 30
def EF9345_MASK_HVS_HS : Nat := 1 <<< EF9345_PIN_HVS_HS
def EF9345_MASK_PC_VS : Nat := 1 <<< EF9345_PIN_PC_VS

/-- Complement of a mask within the 64-bit pin word. -/
def mask64_not (m : Nat) : Nat := 0xFFFFFFFFFFFFFFFF ^^^ m

/-- `uint16_t` subtraction (wraps modulo 2^16). -/
def u16_sub (a b : Nat) : Nat := (a % 65536 + 65536 - b % 65536) % 65536

/-- The `while (r > 31) r -= 24;` row renormalisation loop, embedded with a
structural fuel argument (each iteration lowers `r` by 24, so `r` itself
bounds the iteration count). -/
def wrap_row_31_fuel : Nat → Nat → Nat
  | 0, r => r
  | fuel + 1, r => if r > 31 then wrap_row_31_fuel fuel (r - 24) else r

/-- The `while (r > 31) r -= 24;` row renormalisation loop. -/
def wrap_row_31 (r : Nat) : Nat := wrap_row_31_fuel r r

/-- One framebuffer byte store. -/
def fbWrite (fb : Nat → Nat) (addr v : Nat) : Nat → Nat :=
  fun i => if i = addr then v else fb i

/-- Consecutive framebuffer byte stores (the `ef9345->fb[address++] = value`
loops). -/
def writeBytes : (Nat → Nat) → Nat → List Nat → (Nat → Nat)
  | fb, _, [] => fb
  | fb, addr, v :: vs => writeBytes (fbWrite fb addr v) (addr + 1) vs

theorem writeBytes_frame (vs : List Nat) :
    ∀ (fb : Nat → Nat) (addr i : Nat), i < addr ∨ addr + vs.length ≤ i →
      writeBytes fb addr vs i = fb i := by
  induction vs with
  | nil => intro fb addr i _; rfl
  | cons v vs ih =>
    intro fb addr i hi
    simp only [List.length_cons] at hi
    have h1 : i < addr + 1 ∨ addr + 1 + vs.length ≤ i := by omega
    have h2 : i ≠ addr := by omega
    simp only [writeBytes]
    rw [ih (fbWrite fb addr v) (addr + 1) i h1]
    simp [fbWrite, h2]

/-- `_ef9345_render_8x10_alpha_char` from chips/ef9345.h; the two pixel
loops are unrolled into the eight stored bytes.  `slice_value` is a
`uint16_t`, so the cursor complement is a 16-bit complement. -/
def _ef9345_render_8x10_alpha_char (st : ef9345_t) (x : Nat) (address : Nat)
    (is_cursor : Bool) : ef9345_t :=
  let char_from_buffer := (st.row_buffer x).c &&& 0x7f
  let colors_from_buffer := (st.row_buffer x).a
  let bg_color := colors_from_buffer &&& 0b111
  let fg_color := (colors_from_buffer &&& 0b1110000) >>> 4
  let last_scan_line := st.lines_per_frame
  let active_scan_lines := 250
  let first_active_line := u16_sub last_scan_line active_scan_lines
  let row_line := u16_sub st.current_line first_active_line % 10
  if char_from_buffer = 0 then
    { st with fb := (writeBytes st.fb address
        [bg_color, bg_color, bg_color, bg_color, bg_color, bg_color, bg_color, bg_color]) }
  else
    let quadrant := st.quadrant_buffer x
    let char_offset := ((char_from_buffer &&& 0x7f) >>> 2) * 0x40 + (char_from_buffer &&& 0x03)
    let base_char_address := 0x0800
    let slice_height_shift := if quadrant &&& 0b1000 ≠ 0 then 5 else 0
    let slice_number := row_line / (if quadrant &&& 0b1100 ≠ 0 then 2 else 1) + slice_height_shift
    let slice_address := base_char_address + char_offset + slice_number * 4
    let slice_value := mem_rd st.rom slice_address
    let slice_value := if is_cursor then slice_value ^^^ 0xFFFF else slice_value
    if quadrant &&& 0x03 ≠ 0 then
      -- double width: pixels advance two at a time, consuming bits 0-3
      let slice_value := if quadrant &&& 0x02 ≠ 0 then slice_value >>> 4 else slice_value
      let v := fun p => if (slice_value >>> p) &&& 1 = 1 then fg_color else bg_color
      { st with fb := writeBytes st.fb address [v 0, v 0, v 1, v 1, v 2, v 2, v 3, v 3] }
    else
      let v := fun p => if (slice_value >>> p) &&& 1 = 1 then fg_color else bg_color
      { st with fb := writeBytes st.fb address [v 0, v 1, v 2, v 3, v 4, v 5, v 6, v 7] }

/-- `_ef9345_load_char_row_40_short` from chips/ef9345.h: the x-loop is a
fold carrying the four latched attribute values and the row buffer. -/
def _ef9345_load_char_row_40_short (st : ef9345_t) (screen_row : Nat) : ef9345_t :=
  let actual_row :=
    if screen_row > 0 then wrap_row_31 ((st.origin_row_yor + screen_row - 1) % 256)
    else 0
  let block_origin := st.block_origin
  let step := fun (acc : Nat × Nat × Nat × Nat × (Nat → ef945_char_triplet_t)) (x : Nat) =>
    let (latched_underline, latched_conceal, latched_insert, latched_background_color, buf) := acc
    let address := _ef9345_triplet_to_physical_address x actual_row block_origin
    let data_a_prime := mem_rd st.ram address
    let data_b_prime := mem_rd st.ram (address + 0x0400)
    let is_del := data_b_prime &&& 0b11100000 = 0b10000000
    if is_del then
      let latched_underline := (data_b_prime &&& 0b00000100) <<< 2
      let latched_insert := (data_b_prime &&& 0b00000010) >>> 1
      let latched_conceal := (data_b_prime &&& 0b00000001) <<< 2
      let latched_background_color := data_a_prime &&& 0b111
      let data_c := 0
      let data_b := 0b00100000 ||| latched_underline ||| latched_conceal ||| latched_insert
      let data_a := data_a_prime
      (latched_underline, latched_conceal, latched_insert, latched_background_color,
        fun i => if i = x then ef945_char_triplet_t.mk data_a data_b data_c else buf i)
    else
      let is_graph := data_a_prime &&& 0x80 ≠ 0
      if is_graph then
        let in_ram := data_b_prime &&& 0x80
        let data_a := data_a_prime &&& 0x7f
        let latched_background_color := data_a &&& 0b111
        let data_b := in_ram ||| 0b00100000 ||| latched_conceal ||| latched_insert
        let data_c := data_b_prime
        (latched_underline, latched_conceal, latched_insert, latched_background_color,
          fun i => if i = x then ef945_char_triplet_t.mk data_a data_b data_c else buf i)
      else
        let color := (data_a_prime &&& 0b00000111) <<< 4
        let flash := data_a_prime &&& 0b00001000
        let height := (data_a_prime &&& 0b00010000) >>> 3
        let width := (data_a_prime &&& 0b00100000) >>> 2
        let negative := (data_a_prime &&& 0b01000000) <<< 1
        let in_ram := data_b_prime &&& 0b10000000
        let data_a := negative ||| color ||| flash ||| latched_background_color
        let data_b := in_ram ||| latched_underline ||| width ||| latched_conceal ||| height ||| latched_insert
        let data_c := data_b_prime
        (latched_underline, latched_conceal, latched_insert, latched_background_color,
          fun i => if i = x then ef945_char_triplet_t.mk data_a data_b data_c else buf i)
  { st with row_buffer := ((List.range 40).foldl step (0, 0, 0, 0, st.row_buffer)).2.2.2.2 }

/-- `_ef9345_load_char_row_40_long` from chips/ef9345.h. -/
def _ef9345_load_char_row_40_long (st : ef9345_t) (screen_row : Nat) : ef9345_t :=
  let actual_row :=
    if screen_row > 0 then wrap_row_31 ((st.origin_row_yor + screen_row - 1) % 256)
    else 0
  let step := fun (buf : Nat → ef945_char_triplet_t) (x : Nat) =>
    let address := _ef9345_triplet_to_physical_address x actual_row st.block_origin
    let data_c := mem_rd st.ram address
    let data_b := mem_rd st.ram (address + 0x0400)
    let data_a := mem_rd st.ram (address + 0x0800)
    fun i => if i = x then ef945_char_triplet_t.mk data_a data_b data_c else buf i
  { st with row_buffer := (List.range 40).foldl step st.row_buffer }

/-- `_ef9345_load_char_row` dispatch.  Character codes: 40_LONG = 0,
40_VAR = 1, 80_SHORT = 2, 80_LONG = 3, 40_SHORT = 4.  The VAR/80-column
modes hit `CHIPS_ASSERT(0)` (unimplemented); they leave the state unchanged
here (NDEBUG semantics). -/
def _ef9345_load_char_row (st : ef9345_t) (row : Nat) : ef9345_t :=
  if st.char_code = 4 then _ef9345_load_char_row_40_short st row
  else if st.char_code = 0 then _ef9345_load_char_row_40_long st row
  else st

/-- `_ef9345_compute_quadrant_for_row` from chips/ef9345.h: one left-to-right
pass over the quadrant buffer. -/
def _ef9345_compute_quadrant_for_row (st : ef9345_t) : ef9345_t :=
  let step := fun (qb : Nat → Nat) (x : Nat) =>
    let is_double_height := (st.row_buffer x).b &&& 0x02 ≠ 0
    let is_double_width := (st.row_buffer x).b &&& 0x08 ≠ 0
    let is_double_size := is_double_height ∧ is_double_width
    let quadrant :=
      if x > 0 then
        if qb (x - 1) = 5 ∧ is_double_size then 6
        else if qb (x - 1) = 9 ∧ is_double_size then 0xA
        else if qb (x - 1) = 1 ∧ is_double_width then 2
        else if qb x = 4 ∧ is_double_height then 8
        else 0
      else 0
    let quadrant :=
      if quadrant = 0 then
        if is_double_size then (if qb x = 5 then 9 else 5)
        else if is_double_width then 1
        else if is_double_height then 4
        else 0
      else quadrant
    fun i => if i = x then quadrant else qb i
  { st with quadrant_buffer := (List.range 40).foldl step st.quadrant_buffer }

/-- First phase of `_ef9345_beam_update`: advance the line tick and the
current line. -/
def _ef9345_beam_advance (st : ef9345_t) : ef9345_t :=
  let st := { st with line_tick := (st.line_tick + 1) % tick_per_line }
  if st.line_tick = 0 then
    { st with current_line := (st.current_line + 1) % st.lines_per_frame }
  else st

/-- Sync-pin phase of `_ef9345_beam_update` (VBLANK on the first two lines,
HBLANK for the first `tick_hblank_start` ticks of a line). -/
def _ef9345_beam_sync_pins (st : ef9345_t) (vdp_pins : Nat) : Nat :=
  let vdp_pins :=
    if st.current_line < 2 then vdp_pins &&& mask64_not EF9345_MASK_PC_VS
    else vdp_pins ||| EF9345_MASK_PC_VS
  if st.line_tick < tick_hblank_start then vdp_pins &&& mask64_not EF9345_MASK_HVS_HS
  else vdp_pins ||| EF9345_MASK_HVS_HS

/-- The character row index of the current line; `int16_t` arithmetic, so it
is negative above the active window (C division truncates toward zero). -/
def _ef9345_beam_current_row (st : ef9345_t) : Int :=
  let first_active_line := u16_sub st.lines_per_frame 250
  Int.tdiv ((st.current_line : Int) - (first_active_line : Int)) 10

/-- Body of the row-loading phase once the load is due: record the loaded
row, clear the quadrant buffer at the top of the frame, and reload rows
below 25. -/
def _ef9345_beam_row_load_go (st : ef9345_t) (current_row : Int) : ef9345_t :=
  let st := { st with latest_loaded_row_line := current_row.toNat % 256 }
  let st := if current_row = 0 then { st with quadrant_buffer := fun _ => 0 } else st
  if current_row < 25 then
    _ef9345_compute_quadrant_for_row (_ef9345_load_char_row st current_row.toNat)
  else st

/-- Row-loading phase of `_ef9345_beam_update`. -/
def _ef9345_beam_row_load (st : ef9345_t) : ef9345_t :=
  let current_row := _ef9345_beam_current_row st
  if 0 ≤ current_row ∧ (st.latest_loaded_row_line : Int) ≠ current_row then
    _ef9345_beam_row_load_go st current_row
  else st

/-- Rendering phase of `_ef9345_beam_update`. -/
def _ef9345_beam_render (st : ef9345_t) : ef9345_t :=
  let last_scan_line := st.lines_per_frame
  let first_active_line := u16_sub last_scan_line 250
  let current_row := _ef9345_beam_current_row st
  if first_active_line ≤ st.current_line ∧ st.current_line < last_scan_line then
    if st.line_tick < 40 * tick_for_1mus then
      let x := st.line_tick / tick_for_1mus
      if x ≠ st.latest_rendered_column then
        let st := { st with latest_rendered_column := x }
        let fb_address := (st.current_line - first_active_line) * EF9345_FRAMEBUFFER_WIDTH + x * 8
        if current_row = 0 then
          let display_cursor : Bool :=
            if st.indirect_mat &&& 0b01000000 ≠ 0 then
              decide (st.direct_r7 &&& 0x3f = x ∧ st.direct_r6 &&& 0x1f = 0)
            else false
          _ef9345_render_8x10_alpha_char st x fb_address display_cursor
        else
          let display_cursor : Bool :=
            if st.indirect_mat &&& 0b01000000 ≠ 0 then
              let actual_y := wrap_row_31 ((st.origin_row_yor + current_row.toNat - 1) % 256)
              decide (8 ≤ st.direct_r6 &&& 0x1f ∧
                st.direct_r7 &&& 0x3f = x ∧ st.direct_r6 &&& 0x1f = actual_y)
            else false
          _ef9345_render_8x10_alpha_char st x fb_address display_cursor
      else st
    else st
  else st

/-- `_ef9345_beam_update` from chips/ef9345.h, as the composition of its four
phases in source order: advance the raster, derive the sync pins from the
advanced raster, load the character row, render the current cell. -/
def _ef9345_beam_update (st : ef9345_t) (vdp_pins : Nat) : ef9345_t × Nat :=
  (_ef9345_beam_render (_ef9345_beam_row_load (_ef9345_beam_advance st)),
   _ef9345_beam_sync_pins (_ef9345_beam_advance st) vdp_pins)

theorem beam_update_fst (st : ef9345_t) (vdp_pins : Nat) :
    (_ef9345_beam_update st vdp_pins).1
      = _ef9345_beam_render (_ef9345_beam_row_load (_ef9345_beam_advance st)) := by
  simp only [_ef9345_beam_update]

/-- Base framebuffer address of the cell rendered by one beam step, in terms
of the post-advance raster position. -/
def _ef9345_beam_fb_base (st : ef9345_t) : Nat :=
  let st := _ef9345_beam_advance st
  let first_active_line := u16_sub st.lines_per_frame 250
  (st.current_line - first_active_line) * EF9345_FRAMEBUFFER_WIDTH
    + (st.line_tick / tick_for_1mus) * 8

/-- Plane-local base address used by the render phase, in terms of the
current raster state. -/
def _ef9345_beam_render_base (st : ef9345_t) : Nat :=
  (st.current_line - u16_sub st.lines_per_frame 250) * EF9345_FRAMEBUFFER_WIDTH
    + (st.line_tick / tick_for_1mus) * 8


theorem load40short_fields (st : ef9345_t) (r : Nat) :
    (_ef9345_load_char_row_40_short st r).fb = st.fb ∧
    (_ef9345_load_char_row_40_short st r).current_line = st.current_line ∧
    (_ef9345_load_char_row_40_short st r).line_tick = st.line_tick ∧
    (_ef9345_load_char_row_40_short st r).lines_per_frame = st.lines_per_frame ∧
    (_ef9345_load_char_row_40_short st r).latest_rendered_column = st.latest_rendered_column :=
  ⟨rfl, rfl, rfl, rfl, rfl⟩

theorem load40long_fields (st : ef9345_t) (r : Nat) :
    (_ef9345_load_char_row_40_long st r).fb = st.fb ∧
    (_ef9345_load_char_row_40_long st r).current_line = st.current_line ∧
    (_ef9345_load_char_row_40_long st r).line_tick = st.line_tick ∧
    (_ef9345_load_char_row_40_long st r).lines_per_frame = st.lines_per_frame ∧
    (_ef9345_load_char_row_40_long st r).latest_rendered_column = st.latest_rendered_column :=
  ⟨rfl, rfl, rfl, rfl, rfl⟩

theorem load_char_row_fields (st : ef9345_t) (r : Nat) :
    (_ef9345_load_char_row st r).fb = st.fb ∧
    (_ef9345_load_char_row st r).current_line = st.current_line ∧
    (_ef9345_load_char_row st r).line_tick = st.line_tick ∧
    (_ef9345_load_char_row st r).lines_per_frame = st.lines_per_frame ∧
    (_ef9345_load_char_row st r).latest_rendered_column = st.latest_rendered_column := by
  unfold _ef9345_load_char_row
  split
  · exact load40short_fields st r
  · split
    · exact load40long_fields st r
    · exact ⟨rfl, rfl, rfl, rfl, rfl⟩

theorem compute_quadrant_fields (st : ef9345_t) :
    (_ef9345_compute_quadrant_for_row st).fb = st.fb ∧
    (_ef9345_compute_quadrant_for_row st).current_line = st.current_line ∧
    (_ef9345_compute_quadrant_for_row st).line_tick = st.line_tick ∧
    (_ef9345_compute_quadrant_for_row st).lines_per_frame = st.lines_per_frame ∧
    (_ef9345_compute_quadrant_for_row st).latest_rendered_column = st.latest_rendered_column :=
  ⟨rfl, rfl, rfl, rfl, rfl⟩

set_option maxRecDepth 8192 in
theorem beam_row_load_go_fields (st : ef9345_t) (cr : Int) :
    (_ef9345_beam_row_load_go st cr).fb = st.fb ∧
    (_ef9345_beam_row_load_go st cr).current_line = st.current_line ∧
    (_ef9345_beam_row_load_go st cr).line_tick = st.line_tick ∧
    (_ef9345_beam_row_load_go st cr).lines_per_frame = st.lines_per_frame ∧
    (_ef9345_beam_row_load_go st cr).latest_rendered_column = st.latest_rendered_column := by
  unfold _ef9345_beam_row_load_go
  by_cases h0 : cr = 0
  · subst h0
    simp only [if_pos (le_refl (0 : Int)), reduceIte]
    obtain ⟨q1, q2, q3, q4, q5⟩ := compute_quadrant_fields
      (_ef9345_load_char_row
        { st with latest_loaded_row_line := Int.toNat 0 % 256, quadrant_buffer := fun _ => 0 }
        (Int.toNat 0))
    obtain ⟨l1, l2, l3, l4, l5⟩ := load_char_row_fields
      ({ st with latest_loaded_row_line := Int.toNat 0 % 256, quadrant_buffer := fun _ => 0 })
      (Int.toNat 0)
    exact ⟨q1.trans l1, q2.trans l2, q3.trans l3, q4.trans l4, q5.trans l5⟩
  · by_cases h25 : cr < 25
    · simp only [if_neg h0, if_pos h25]
      obtain ⟨q1, q2, q3, q4, q5⟩ := compute_quadrant_fields
        (_ef9345_load_char_row { st with latest_loaded_row_line := cr.toNat % 256 } cr.toNat)
      obtain ⟨l1, l2, l3, l4, l5⟩ := load_char_row_fields
        ({ st with latest_loaded_row_line := cr.toNat % 256 }) cr.toNat
      exact ⟨q1.trans l1, q2.trans l2, q3.trans l3, q4.trans l4, q5.trans l5⟩
    · simp only [if_neg h0, if_neg h25]
      refine ⟨?_, ?_, ?_, ?_, ?_⟩ <;> trivial

theorem beam_row_load_preserves (st : ef9345_t) :
    (_ef9345_beam_row_load st).fb = st.fb ∧
    (_ef9345_beam_row_load st).current_line = st.current_line ∧
    (_ef9345_beam_row_load st).line_tick = st.line_tick ∧
    (_ef9345_beam_row_load st).lines_per_frame = st.lines_per_frame ∧
    (_ef9345_beam_row_load st).latest_rendered_column = st.latest_rendered_column := by
  simp only [_ef9345_beam_row_load]
  split
  · exact beam_row_load_go_fields st _
  · refine ⟨?_, ?_, ?_, ?_, ?_⟩ <;> trivial

theorem beam_advance_preserves (st : ef9345_t) :
    (_ef9345_beam_advance st).lines_per_frame = st.lines_per_frame ∧
    (_ef9345_beam_advance st).latest_rendered_column = st.latest_rendered_column ∧
    (_ef9345_beam_advance st).fb = st.fb := by
  simp only [_ef9345_beam_advance]
  split <;> refine ⟨?_, ?_, ?_⟩ <;> trivial

set_option maxRecDepth 8192 in
set_option maxHeartbeats 1000000 in
theorem render_fb_frame (st : ef9345_t) (x address : Nat) (cur : Bool) (i : Nat)
    (h : i < address ∨ address + 8 ≤ i) :
    (_ef9345_render_8x10_alpha_char st x address cur).fb i = st.fb i := by
  simp only [_ef9345_render_8x10_alpha_char]
  split
  · refine writeBytes_frame _ st.fb _ i ?_
    simp only [List.length_cons, List.length_nil]
    omega
  · split
    · refine writeBytes_frame _ st.fb _ i ?_
      simp only [List.length_cons, List.length_nil]
      omega
    · refine writeBytes_frame _ st.fb _ i ?_
      simp only [List.length_cons, List.length_nil]
      omega

set_option maxRecDepth 8192 in
set_option maxHeartbeats 1000000 in
/-- The render phase either leaves the framebuffer untouched, or the raster
guards hold and it only writes the 8 bytes of the current cell. -/
theorem beam_render_fb_cases (st : ef9345_t) :
    (_ef9345_beam_render st).fb = st.fb ∨
    ((u16_sub st.lines_per_frame 250 ≤ st.current_line ∧
        st.current_line < st.lines_per_frame) ∧
      st.line_tick < 40 * tick_for_1mus ∧
      ∀ i, i < _ef9345_beam_render_base st ∨ _ef9345_beam_render_base st + 8 ≤ i →
        (_ef9345_beam_render st).fb i = st.fb i) := by
  simp only [_ef9345_beam_render]
  split
  · next h1 =>
    split
    · next h2 =>
      split
      · next h3 =>
        split
        · exact Or.inr ⟨h1, h2, fun i hi => render_fb_frame _ _ _ _ i hi⟩
        · exact Or.inr ⟨h1, h2, fun i hi => render_fb_frame _ _ _ _ i hi⟩
      · exact Or.inl rfl
    · exact Or.inl rfl
  · exact Or.inl rfl

set_option maxRecDepth 8192 in
set_option maxHeartbeats 1000000 in
/-- C10: with a configured frame height (262 or 312 lines), every
framebuffer byte changed by one beam update lies strictly below the
framebuffer size 320×250 = 80000, within the 8-byte cell starting at the
beam's base address; and a cell render never touches a byte outside its 8
consecutive framebuffer bytes. -/
theorem claim_C10 :
    (∀ (st : ef9345_t) (vdp_pins : Nat),
      st.lines_per_frame = 262 ∨ st.lines_per_frame = 312 →
      ∀ i, (_ef9345_beam_update st vdp_pins).1.fb i ≠ st.fb i →
        i < 80000 ∧ _ef9345_beam_fb_base st ≤ i ∧ i < _ef9345_beam_fb_base st + 8) ∧
    (∀ (st : ef9345_t) (x address : Nat) (cur : Bool) (i : Nat),
      i < address ∨ address + 8 ≤ i →
      (_ef9345_render_8x10_alpha_char st x address cur).fb i = st.fb i) := by
  constructor
  · intro st pins hlpf i hne
    rw [beam_update_fst st pins] at hne
    obtain ⟨ha_lpf, ha_lat, ha_fb⟩ := beam_advance_preserves st
    obtain ⟨hr_fb, hr_cl, hr_lt, hr_lpf, hr_lat⟩ :=
      beam_row_load_preserves (_ef9345_beam_advance st)
    set st1 := _ef9345_beam_advance st with hst1
    set st2 := _ef9345_beam_row_load st1 with hst2
    rcases beam_render_fb_cases st2 with hsame | ⟨hg1, hg2, hframe⟩
    · exfalso
      apply hne
      rw [hsame, hr_fb, ha_fb]
    · have hl2 : st2.lines_per_frame = st.lines_per_frame := hr_lpf.trans ha_lpf
      have hLval : st2.lines_per_frame = 262 ∨ st2.lines_per_frame = 312 := by
        rw [hl2]
        exact hlpf
      have hfa : u16_sub st2.lines_per_frame 250 = st2.lines_per_frame - 250 := by
        rcases hLval with h | h <;> rw [h] <;> decide
      have hbase : _ef9345_beam_render_base st2 = _ef9345_beam_fb_base st := by
        unfold _ef9345_beam_render_base _ef9345_beam_fb_base
        rw [hr_cl, hr_lt, hr_lpf]
      have hb2 : _ef9345_beam_render_base st2
          = (st2.current_line - (st2.lines_per_frame - 250)) * 320
            + (st2.line_tick / 12) * 8 := by
        unfold _ef9345_beam_render_base
        rw [hfa]
        rfl
      have htick : (40 : Nat) * tick_for_1mus = 480 := rfl
      rw [htick] at hg2
      rw [hfa] at hg1
      by_cases hin : _ef9345_beam_fb_base st ≤ i ∧ i < _ef9345_beam_fb_base st + 8
      · refine ⟨?_, hin.1, hin.2⟩
        rw [← hbase, hb2] at hin
        rcases hLval with h | h <;> rw [h] at hg1 hin <;> omega
      · exfalso
        apply hne
        rw [hframe i (by rw [hbase]; omega), hr_fb, ha_fb]
  · intro st x address cur i h
    exact render_fb_frame st x address cur i h

/-- Raster state used by the C10 witness: active line 100 of a 262-line
frame, framebuffer filled with colour 7, cell (88, 0) about to render. -/
def c10_witness_state : ef9345_t :=
  { ef9345_zero_state with lines_per_frame := 262, current_line := 100, latest_rendered_column := 99, fb := fun _ => 7 }

set_option maxRecDepth 8192 in
/-- Witness for C10: the beam update at line 100 changes framebuffer byte
28160, which both parts of the claim bound. -/
theorem claim_C10_witness :
    ((28160 : Nat) < 80000 ∧ _ef9345_beam_fb_base c10_witness_state ≤ 28160 ∧
      28160 < _ef9345_beam_fb_base c10_witness_state + 8) ∧
    (_ef9345_render_8x10_alpha_char c10_witness_state 0 0 false).fb 100
      = c10_witness_state.fb 100 :=
  ⟨claim_C10.1 c10_witness_state 0 (Or.inl rfl) 28160 (by decide),
   claim_C10.2 c10_witness_state 0 0 false 100 (Or.inr (by decide))⟩

/-! ### VG5000µ bus decoder and tick orchestrator (vg5000.h) -/

/-- Modelled from the spec: the CPU collaborator's pin layout (§6, z80.h of
the chips library): address bits A0–A15 at positions 0–15, control lines
IORQ = 26, RD = 27, WR = 28. -/
def Z80_PIN_A5 : Nat := 5
def Z80_PIN_A6 : Nat := 6
def Z80_PIN_A7 : Nat := 7
def Z80_PIN_IORQ : Nat := 26
def Z80_PIN_RD : Nat := 27
def Z80_PIN_WR : Nat := 28

def Z80_A5 : Nat := 1 <<< Z80_PIN_A5
def Z80_A6 : Nat := 1 <<< Z80_PIN_A6
def Z80_A7 : Nat := 1 <<< Z80_PIN_A7
def Z80_IORQ : Nat := 1 <<< Z80_PIN_IORQ
def Z80_RD : Nat := 1 <<< Z80_PIN_RD
def Z80_WR : Nat := 1 <<< Z80_PIN_WR

def EF9345_PIN_AS : Nat := 8
def EF9345_PIN_DS : Nat := 9
def EF9345_PIN_RW : Nat := 10
def EF9345_MASK_AS : Nat := 1 <<< EF9345_PIN_AS
def EF9345_MASK_DS : Nat := 1 <<< EF9345_PIN_DS
def EF9345_MASK_RW : Nat := 1 <<< EF9345_PIN_RW

def SERVICE_BUS_PIN_RKY : Nat := 0
def SERVICE_BUS_PIN_RK7 : Nat := 1
def SERVICE_BUS_PIN_WK7 : Nat := 2
def SERVICE_BUS_MASK_RKY : Nat := 1 <<< SERVICE_BUS_PIN_RKY
def SERVICE_BUS_MASK_RK7 : Nat := 1 <<< SERVICE_BUS_PIN_RK7
def SERVICE_BUS_MASK_WK7 : Nat := 1 <<< SERVICE_BUS_PIN_WK7

/-- The 74LS138-style one-hot output byte computed inside
`_vg5000_7807_decoder` (vg5000.h): physical levels, selected line low. -/
def _vg5000_7807_decoder_output (cpu_pins : Nat) : Nat :=
  let input_G2 := (((cpu_pins &&& Z80_RD) >>> Z80_PIN_RD) |||
                   ((cpu_pins &&& Z80_WR) >>> Z80_PIN_WR)) &&&
                  ((cpu_pins &&& Z80_IORQ) >>> Z80_PIN_IORQ)
  let input_G2 := if input_G2 = 0 then 1 else 0
  let input_G1 := (cpu_pins &&& Z80_A7) >>> Z80_PIN_A7
  if input_G1 ≠ 0 ∧ input_G2 = 0 then
    let input_a := (cpu_pins &&& Z80_A5) >>> Z80_PIN_A5
    let input_b := (cpu_pins &&& Z80_A6) >>> Z80_PIN_A6
    let input_c := (cpu_pins &&& Z80_WR) >>> Z80_PIN_WR
    let input_c := (input_c ^^^ 0xFF) &&& 1
    let shift := (input_c <<< 2) ||| (input_b <<< 1) ||| input_a
    (1 <<< shift) ^^^ 0xFF
  else
    0xFF

/-- `_vg5000_7807_decoder` (vg5000.h): routing of the one-hot byte onto the
VDP control pins and the service bus. -/
def _vg5000_7807_decoder (cpu_pins vdp_pins service_bus : Nat) : Nat × Nat :=
  let output := _vg5000_7807_decoder_output cpu_pins
  let l := vdp_pins &&& mask64_not EF9345_MASK_AS
  let l := l ||| (((output ^^^ 0xFF) &&& 0x01) <<< EF9345_PIN_AS)
  let l := l &&& mask64_not EF9345_MASK_DS
  let l := l ||| (((output &&& 0x40) >>> 6) <<< EF9345_PIN_DS)
  let l := l &&& mask64_not EF9345_MASK_RW
  let l := l ||| (((output &&& 0x04) >>> 2) <<< EF9345_PIN_RW)
  let s := service_bus &&& mask64_not SERVICE_BUS_MASK_RKY
  let s := s ||| (((output &&& 0x10) >>> 4) <<< SERVICE_BUS_PIN_RKY)
  let s := s &&& mask64_not SERVICE_BUS_MASK_RK7
  let s := s ||| (((output &&& 0x20) >>> 5) <<< SERVICE_BUS_PIN_RK7)
  let s := s &&& mask64_not SERVICE_BUS_MASK_WK7
  let s := s ||| (((output &&& 0x02) >>> 1) <<< SERVICE_BUS_PIN_WK7)
  (l, s)

/-- The decoder output as a function of the six relevant pin bits. -/
def decoderOutputBits (a5 a6 a7 rd wr io : Nat) : Nat :=
  let g2pre := (rd ||| wr) &&& io
  let input_G2 := if g2pre = 0 then 1 else 0
  if a7 ≠ 0 ∧ input_G2 = 0 then
    let input_c := (wr ^^^ 0xFF) &&& 1
    let shift := (input_c <<< 2) ||| (a6 <<< 1) ||| a5
    (1 <<< shift) ^^^ 0xFF
  else
    0xFF

/-- Chip enable of the 7807 decoder: top address bit (A7) high and
(RD ∨ WR) ∧ IORQ at the emulator's active-high level. -/
def _vg5000_7807_chip_enable (p : Nat) : Bool :=
  decide (((p >>> Z80_PIN_A7) &&& 1) ≠ 0 ∧
    ((((p >>> Z80_PIN_RD) &&& 1) ||| ((p >>> Z80_PIN_WR) &&& 1)) &&&
      ((p >>> Z80_PIN_IORQ) &&& 1)) ≠ 0)

/-- The 3-bit index selecting the decoded line: inverted WR on bit 2, A6 on
bit 1, A5 on bit 0. -/
def _vg5000_7807_index (p : Nat) : Nat :=
  (((((p >>> Z80_PIN_WR) &&& 1) ^^^ 0xFF) &&& 1) <<< 2) |||
  ((((p >>> Z80_PIN_A6) &&& 1)) <<< 1) |||
  ((p >>> Z80_PIN_A5) &&& 1)

theorem and_one_lt_two (x : Nat) : x &&& 1 < 2 := by
  rw [Nat.and_one_is_mod]
  exact Nat.mod_lt _ (by norm_num)

theorem decoder_output_eq (p : Nat) :
    _vg5000_7807_decoder_output p
      = decoderOutputBits ((p >>> Z80_PIN_A5) &&& 1) ((p >>> Z80_PIN_A6) &&& 1)
          ((p >>> Z80_PIN_A7) &&& 1) ((p >>> Z80_PIN_RD) &&& 1)
          ((p >>> Z80_PIN_WR) &&& 1) ((p >>> Z80_PIN_IORQ) &&& 1) := by
  simp only [_vg5000_7807_decoder_output, decoderOutputBits,
    Z80_A5, Z80_A6, Z80_A7, Z80_RD, Z80_WR, Z80_IORQ,
    and_shiftLeft_one_shiftRight]

theorem decoder_bits_aux :
    ∀ a5 < 2, ∀ a6 < 2, ∀ a7 < 2, ∀ rd < 2, ∀ wr < 2, ∀ io < 2, ∀ i < 8,
      ((decoderOutputBits a5 a6 a7 rd wr io) >>> i) &&& 1
        = if (a7 ≠ 0 ∧ ((rd ||| wr) &&& io) ≠ 0) ∧
              i = ((((wr ^^^ 0xFF) &&& 1) <<< 2) ||| (a6 <<< 1) ||| a5)
          then 0 else 1 := by
  intro a5 h5 a6 h6 a7 h7 rd hrd wr hwr io hio i hi
  interval_cases a5 <;> interval_cases a6 <;> interval_cases a7 <;> interval_cases rd <;>
    interval_cases wr <;> interval_cases io <;> interval_cases i <;> decide

/-- C2: with chip enable asserted, exactly the line selected by the 3-bit
index (inverted write-enable, A6, A5) is pulled to its active low level and
the other seven are high; with chip enable deasserted, none of the eight
lines is asserted. -/
theorem claim_C2 :
    ∀ p : Nat,
      (_vg5000_7807_chip_enable p = true →
        ∀ i < 8, (((_vg5000_7807_decoder_output p) >>> i) &&& 1 = 0 ↔
          i = _vg5000_7807_index p)) ∧
      (_vg5000_7807_chip_enable p = false →
        ∀ i < 8, ((_vg5000_7807_decoder_output p) >>> i) &&& 1 = 1) := by
  intro p
  constructor
  · intro hen i hi
    have h := decoder_bits_aux ((p >>> Z80_PIN_A5) &&& 1) (and_one_lt_two _)
      ((p >>> Z80_PIN_A6) &&& 1) (and_one_lt_two _) ((p >>> Z80_PIN_A7) &&& 1) (and_one_lt_two _)
      ((p >>> Z80_PIN_RD) &&& 1) (and_one_lt_two _) ((p >>> Z80_PIN_WR) &&& 1) (and_one_lt_two _)
      ((p >>> Z80_PIN_IORQ) &&& 1) (and_one_lt_two _) i hi
    have henp := of_decide_eq_true hen
    rw [decoder_output_eq p, h]
    constructor
    · intro h0
      by_cases hc : i = _vg5000_7807_index p
      · exact hc
      · rw [if_neg (fun hfull => hc hfull.2)] at h0
        exact absurd h0 one_ne_zero
    · intro hidx
      rw [if_pos ⟨henp, hidx⟩]
  · intro hdis i hi
    have h := decoder_bits_aux ((p >>> Z80_PIN_A5) &&& 1) (and_one_lt_two _)
      ((p >>> Z80_PIN_A6) &&& 1) (and_one_lt_two _) ((p >>> Z80_PIN_A7) &&& 1) (and_one_lt_two _)
      ((p >>> Z80_PIN_RD) &&& 1) (and_one_lt_two _) ((p >>> Z80_PIN_WR) &&& 1) (and_one_lt_two _)
      ((p >>> Z80_PIN_IORQ) &&& 1) (and_one_lt_two _) i hi
    have hdisp := of_decide_eq_false hdis
    rw [decoder_output_eq p, h, if_neg (fun hfull => hdisp hfull.1)]

/-- Witness for C2: A7, RD, IORQ and A5 high selects line 5 (inverted WR
gives index bit 2), which is pulled low. -/
theorem claim_C2_witness :
    (((_vg5000_7807_decoder_output ((1 <<< 7) ||| (1 <<< 27) ||| (1 <<< 26) ||| (1 <<< 5))) >>> 5)
        &&& 1 = 0) ∧
    ((_vg5000_7807_decoder_output 0) >>> 3) &&& 1 = 1 :=
  ⟨((claim_C2 ((1 <<< 7) ||| (1 <<< 27) ||| (1 <<< 26) ||| (1 <<< 5))).1 (by decide) 5
      (by decide)).mpr (by decide),
   (claim_C2 0).2 (by decide) 3 (by decide)⟩

/-- Modelled from the spec: the tick-count conversion of §5 — "a requested
wall-clock duration converted to tick count via the system's nominal
frequency" (`clk_us_to_ticks` of the chips clk.h, not under src/). -/
def clk_us_to_ticks (freq_hz micro_seconds : Nat) : Nat :=
  freq_hz * micro_seconds / 1000000

def VG5000_FREQUENCY : Nat := 4000000

/-- The tick loop of `vg5000_exec` without a debug hook; the per-tick body
(`_vg5000_tick`: CPU, memory router, decoder, VDP sub-loop, keyboard — all
external collaborators) is the abstract state transformer `tick`. -/
def _vg5000_run_ticks {σ : Type} (tick : σ → σ) : Nat → σ → σ
  | 0, st => st
  | n + 1, st => _vg5000_run_ticks tick n (tick st)

/-- The debug-hook tick loop of `vg5000_exec`: the cooperative stop flag is
checked before each iteration; each iteration ticks and then invokes the
callback. -/
def _vg5000_run_ticks_debug {σ : Type} (tick cb : σ → σ) (stopped : σ → Bool) :
    Nat → σ → σ
  | 0, st => st
  | n + 1, st =>
    if stopped st then st
    else _vg5000_run_ticks_debug tick cb stopped n (cb (tick st))

/-- `vg5000_exec` from vg5000.h: converts the requested microseconds into a
tick batch, runs the plain or debug loop, and returns `num_ticks` — the
source's single `return num_ticks;` in both paths. -/
def vg5000_exec {σ : Type} (tick : σ → σ) (debugCb : Option (σ → σ))
    (stopped : σ → Bool) (st : σ) (micro_seconds : Nat) : σ × Nat :=
  let num_ticks := clk_us_to_ticks VG5000_FREQUENCY micro_seconds
  match debugCb with
  | none => (_vg5000_run_ticks tick num_ticks st, num_ticks)
  | some cb => (_vg5000_run_ticks_debug tick cb stopped num_ticks st, num_ticks)

/-- C9 counterexample: with a debug hook installed and the stop flag already
set, no iteration runs (the state, which counts executed ticks through
`Nat.succ`, stays 0), yet `vg5000_exec` still returns the full batch of 40
ticks for 10 µs — not the number of ticks actually executed. -/
theorem claim_C9_counterexample :
    (vg5000_exec Nat.succ (some id) (fun _ => true) 0 10).2 = 40 ∧
    (vg5000_exec Nat.succ (some id) (fun _ => true) 0 10).1 = 0 ∧
    (40 : Nat) ≠ 0 := by
  decide

/-- C9 (amended): `vg5000_exec` always returns the full batch
`clk_us_to_ticks` derived from the requested microseconds — also when the
debug-stop flag ends the loop early — and without a debug hook it executes
exactly that many ticks. -/
theorem claim_C9 :
    ∀ (σ : Type) (tick : σ → σ) (debugCb : Option (σ → σ)) (stopped : σ → Bool)
      (st : σ) (us : Nat),
      (vg5000_exec tick debugCb stopped st us).2 = clk_us_to_ticks VG5000_FREQUENCY us ∧
      (debugCb = none →
        (vg5000_exec tick debugCb stopped st us).1
          = _vg5000_run_ticks tick (clk_us_to_ticks VG5000_FREQUENCY us) st) := by
  intro σ tick debugCb stopped st us
  cases debugCb with
  | none => exact ⟨rfl, fun _ => rfl⟩
  | some cb => exact ⟨rfl, fun h => Option.noConfusion h⟩

/-- Witness for C9: the no-debug run over 10 µs. -/
theorem claim_C9_witness :
    (vg5000_exec Nat.succ none (fun _ => false) 0 10).2
        = clk_us_to_ticks VG5000_FREQUENCY 10 ∧
    (vg5000_exec Nat.succ none (fun _ => false) 0 10).1
        = _vg5000_run_ticks Nat.succ (clk_us_to_ticks VG5000_FREQUENCY 10) 0 :=
  ⟨(claim_C9 Nat Nat.succ none (fun _ => false) 0 10).1,
   (claim_C9 Nat Nat.succ none (fun _ => false) 0 10).2 rfl⟩

/-! ### VG5000µ cassette recorder (cass_vg5000.h) -/

def VG5000_MAX_TAPE_DATA_SIZE : Nat := 32 * 1024
def VG5000_MAX_CODEC_SIZE : Nat := 12

inductive tape_state_t where
  | initial_synchro
  | header_data
  | second_synchro
  | payload_data
  | finished
  | error
deriving DecidableEq

structure tape_t where
  size : Nat
  data : Nat → Nat

/-- `tape_information_t`; the `name` and `start_line` C strings are kept as
their 6 and 5 copied bytes (the trailing NUL is a constant). -/
structure tape_information_t where
  format : Nat
  name : List Nat
  version : Nat
  start_line : List Nat
  protection : Nat
  check_pos : Nat
  start_adr : Nat
  data_length : Nat
  checksum : Nat
deriving DecidableEq

structure tape_codec_t where
  pos : Nat
  state : tape_state_t
  current_byte : Nat
  bit_count : Nat
  valid_byte : Nat
  ticks_buf : List Nat
deriving DecidableEq

structure tape_recorder_t where
  tape_index : Nat
  tape : tape_t
  tape_info : tape_information_t
  tape_codec : tape_codec_t
  motor_on : Bool

def _is_long_tick (tick : Nat) : Bool :=
  if 1500 < tick ∧ tick < 2000 then true else false

def _is_short_tick (tick : Nat) : Bool :=
  if 600 < tick ∧ tick < 1000 then true else false

/-- `_wait_for_synchro` from cass_vg5000.h; returns the updated codec, the
number of samples consumed, and the synchro-found flag (the out-parameter). -/
def _wait_for_synchro (c : tape_codec_t) : tape_codec_t × Nat × Bool :=
  if c.pos = 2 ∧ _is_long_tick (c.ticks_buf.getD 0 0) = true ∧
      _is_long_tick (c.ticks_buf.getD 1 0) = true then
    ({ c with valid_byte := c.current_byte, current_byte := 0, bit_count := 0 }, 2, true)
  else if c.pos = 1 ∧ _is_long_tick (c.ticks_buf.getD 0 0) = false then
    (c, 1, false)
  else if c.pos = 1 ∧ _is_long_tick (c.ticks_buf.getD 0 0) = true then
    (c, 0, false)
  else
    ({ c with state := tape_state_t.error }, 1, false)

/-- The `memmove` shift of consumed samples plus `pos -= samples_consumed`
(the C `size_t` subtraction is truncated here; the code only consumes
samples it has). -/
def consume_samples (c : tape_codec_t) (n : Nat) : tape_codec_t :=
  if 0 < n then
    { c with
      ticks_buf := c.ticks_buf.drop n ++ c.ticks_buf.drop (VG5000_MAX_CODEC_SIZE - n),
      pos := c.pos - n }
  else c

/-- Recording one pulse duration into the ring buffer (`tape_recorder_tick`,
the block guarded by `pos < VG5000_MAX_CODEC_SIZE`). -/
def tape_codec_push (c : tape_codec_t) (tick_counter : Nat) : tape_codec_t :=
  if c.pos < VG5000_MAX_CODEC_SIZE then
    { c with ticks_buf := c.ticks_buf.set c.pos tick_counter, pos := c.pos + 1 }
  else c

/-- The decode state machine of `tape_recorder_tick` (the `switch` on the
codec state followed by the sample-consuming `memmove`), run after a new
sample has been pushed.  The C TAPE_ERROR case falls through into the empty
default. -/
def tape_codec_decode_step (c : tape_codec_t) : tape_codec_t :=
  match c.state with
  | .initial_synchro =>
    let r := _wait_for_synchro c
    let c' := if r.2.2 then { r.1 with state := tape_state_t.header_data } else r.1
    consume_samples c' r.2.1
  | .header_data =>
    if c.bit_count < 8 then
      if c.pos = 2 ∧ _is_long_tick (c.ticks_buf.getD 0 0) = true ∧
          _is_long_tick (c.ticks_buf.getD 1 0) = true then
        consume_samples
          { c with current_byte := c.current_byte >>> 1, bit_count := c.bit_count + 1 } 2
      else if c.pos = 4 ∧ _is_short_tick (c.ticks_buf.getD 0 0) = true ∧
          _is_short_tick (c.ticks_buf.getD 1 0) = true ∧
          _is_short_tick (c.ticks_buf.getD 2 0) = true ∧
          _is_short_tick (c.ticks_buf.getD 3 0) = true then
        consume_samples
          { c with current_byte := (c.current_byte >>> 1) ||| 0x80,
                   bit_count := c.bit_count + 1 } 4
      else if 4 ≤ c.pos then
        consume_samples { c with state := tape_state_t.error, bit_count := 8 } 4
      else c
    else
      let r := _wait_for_synchro c
      consume_samples r.1 r.2.1
  | .second_synchro => { c with state := tape_state_t.payload_data }
  | .payload_data => { c with state := tape_state_t.initial_synchro }
  | .error =>
    if 0 < c.bit_count then consume_samples { c with bit_count := c.bit_count - 1 } 1
    else { c with state := tape_state_t.finished }
  | .finished => c

/-- The byte-accumulation step of the header decoder: shift right, setting
bit 7 for a `1` bit (bits therefore come out LSB-first). -/
def tape_bit_append (byte : Nat) (b : Bool) : Nat :=
  if b then (byte >>> 1) ||| 0x80 else byte >>> 1

/-- The `memcpy` of the inserted image over the tape buffer. -/
def memcpy_prefix (dst src : Nat → Nat) (n : Nat) : Nat → Nat :=
  fun i => if i < n then src i else dst i

/-- `_read_tape_information` from cass_vg5000.h: validates the 0xD3
preamble, parses the fixed header layout into `tape_info`, validates the
0xD6 trailer and the declared total length. -/
def _read_tape_information (recorder : tape_recorder_t) : tape_recorder_t × Bool :=
  let tape_data_size := recorder.tape.size
  if tape_data_size < 32 then (recorder, false)
  else
    let data := recorder.tape.data
    if (List.range 10).all (fun i => data i == 0xd3) then
      let tape_info : tape_information_t :=
        { format := data 10
          name := [data 11, data 12, data 13, data 14, data 15, data 16]
          version := data 17
          start_line := [data 18, data 19, data 20, data 21, data 22]
          protection := data 23
          check_pos := (data 25 <<< 8) ||| data 24
          start_adr := (data 27 <<< 8) ||| data 26
          data_length := (data 29 <<< 8) ||| data 28
          checksum := (data 31 <<< 8) ||| data 30 }
      let recorder := { recorder with tape_info := tape_info }
      if (List.range 10).all (fun i => data (32 + i) == 0xd6) then
        if tape_data_size < 32 + tape_info.data_length + 10 then (recorder, false)
        else (recorder, true)
      else (recorder, false)
    else (recorder, false)

/-- `tape_recorder_insert_tape` from cass_vg5000.h: the image is copied into
the tape buffer and the size set before validation runs. -/
def tape_recorder_insert_tape (recorder : tape_recorder_t) (k7_size : Nat)
    (k7_data : Nat → Nat) : tape_recorder_t × Bool :=
  let recorder := { recorder with
    tape := { size := k7_size, data := memcpy_prefix recorder.tape.data k7_data k7_size } }
  let recorder := { recorder with tape_index := 0, motor_on := false }
  _read_tape_information recorder

/-- C8: in the header-bit decoding state with fewer than 8 accumulated bits,
two long pulses append a 0 bit and four short pulses append a 1 bit (both
LSB-first via `tape_bit_append`), a non-matching pattern with 4 or more
accumulated samples enters the error state, and with 8 bits accumulated a
two-long synchro latches the completed byte; folding `tape_bit_append` over
8 bits produces the LSB-first byte value. -/
theorem claim_C8 :
    (∀ c : tape_codec_t, c.state = tape_state_t.header_data →
      (c.bit_count < 8 →
        (c.pos = 2 ∧ _is_long_tick (c.ticks_buf.getD 0 0) = true ∧
          _is_long_tick (c.ticks_buf.getD 1 0) = true) →
        (tape_codec_decode_step c).current_byte = tape_bit_append c.current_byte false ∧
        (tape_codec_decode_step c).bit_count = c.bit_count + 1 ∧
        (tape_codec_decode_step c).state = tape_state_t.header_data ∧
        (tape_codec_decode_step c).pos = c.pos - 2) ∧
      (c.bit_count < 8 →
        (c.pos = 4 ∧ _is_short_tick (c.ticks_buf.getD 0 0) = true ∧
          _is_short_tick (c.ticks_buf.getD 1 0) = true ∧
          _is_short_tick (c.ticks_buf.getD 2 0) = true ∧
          _is_short_tick (c.ticks_buf.getD 3 0) = true) →
        (tape_codec_decode_step c).current_byte = tape_bit_append c.current_byte true ∧
        (tape_codec_decode_step c).bit_count = c.bit_count + 1 ∧
        (tape_codec_decode_step c).state = tape_state_t.header_data ∧
        (tape_codec_decode_step c).pos = c.pos - 4) ∧
      (c.bit_count < 8 → 4 ≤ c.pos →
        ¬(c.pos = 4 ∧ _is_short_tick (c.ticks_buf.getD 0 0) = true ∧
          _is_short_tick (c.ticks_buf.getD 1 0) = true ∧
          _is_short_tick (c.ticks_buf.getD 2 0) = true ∧
          _is_short_tick (c.ticks_buf.getD 3 0) = true) →
        (tape_codec_decode_step c).state = tape_state_t.error) ∧
      (8 ≤ c.bit_count →
        (c.pos = 2 ∧ _is_long_tick (c.ticks_buf.getD 0 0) = true ∧
          _is_long_tick (c.ticks_buf.getD 1 0) = true) →
        (tape_codec_decode_step c).valid_byte = c.current_byte ∧
        (tape_codec_decode_step c).current_byte = 0 ∧
        (tape_codec_decode_step c).bit_count = 0 ∧
        (tape_codec_decode_step c).state = tape_state_t.header_data)) ∧
    (∀ b0 b1 b2 b3 b4 b5 b6 b7 : Bool,
      List.foldl tape_bit_append 0 [b0, b1, b2, b3, b4, b5, b6, b7]
        = b0.toNat + 2 * b1.toNat + 4 * b2.toNat + 8 * b3.toNat + 16 * b4.toNat +
          32 * b5.toNat + 64 * b6.toNat + 128 * b7.toNat) := by
  constructor
  · intro c hstate
    refine ⟨?_, ?_, ?_, ?_⟩
    · intro hb hcond
      simp only [tape_codec_decode_step, hstate]
      rw [if_pos hb, if_pos hcond]
      simp only [consume_samples, if_pos (by norm_num : (0 : Nat) < 2)]
      refine ⟨?_, ?_, ?_, ?_⟩ <;> trivial
    · intro hb hcond
      simp only [tape_codec_decode_step, hstate]
      rw [if_pos hb, if_neg (by rintro ⟨h2, -⟩; omega), if_pos hcond]
      simp only [consume_samples, if_pos (by norm_num : (0 : Nat) < 4)]
      refine ⟨?_, ?_, ?_, ?_⟩ <;> trivial
    · intro hb hge hnot
      simp only [tape_codec_decode_step, hstate]
      rw [if_pos hb, if_neg (by rintro ⟨h2, -⟩; omega), if_neg hnot, if_pos hge]
      simp only [consume_samples, if_pos (by norm_num : (0 : Nat) < 4)]
    · intro hb hcond
      simp only [tape_codec_decode_step, hstate]
      rw [if_neg (by omega), _wait_for_synchro, if_pos hcond]
      simp only [consume_samples, if_pos (by norm_num : (0 : Nat) < 2)]
      refine ⟨?_, ?_, ?_, ?_⟩ <;> trivial
  · decide

/-- Witness for C8: one 0-bit step from a codec holding two long pulses,
and the byte 0b10110010 reassembled LSB-first. -/
theorem claim_C8_witness :
    ((tape_codec_decode_step
        { pos := 2, state := tape_state_t.header_data, current_byte := 5, bit_count := 0,
          valid_byte := 0,
          ticks_buf := [1600, 1700, 0, 0, 0, 0, 0, 0, 0, 0, 0, 0] }).current_byte
      = tape_bit_append 5 false) ∧
    List.foldl tape_bit_append 0 [false, true, false, false, true, true, false, true]
      = 178 :=
  ⟨((claim_C8.1
      { pos := 2, state := tape_state_t.header_data, current_byte := 5, bit_count := 0,
        valid_byte := 0,
        ticks_buf := [1600, 1700, 0, 0, 0, 0, 0, 0, 0, 0, 0, 0] } rfl).1
      (by decide) (by decide)).1,
   by rw [claim_C8.2 false true false false true true false true]; decide⟩

/-- `_read_tape_information` never touches the tape buffer itself. -/
theorem read_tape_info_tape (r : tape_recorder_t) :
    (_read_tape_information r).1.tape = r.tape := by
  simp only [_read_tape_information]
  repeat' split
  all_goals rfl

/-- A freshly initialised recorder holding a previous 100-byte tape. -/
def tape_recorder_prev_state : tape_recorder_t :=
  { tape_index := 0, tape := { size := 100, data := fun _ => 0 },
    tape_info := { format := 9, name := [], version := 0, start_line := [], protection := 0, check_pos := 0, start_adr := 0, data_length := 0, checksum := 0 },
    tape_codec := { pos := 0, state := tape_state_t.initial_synchro, current_byte := 0, bit_count := 0, valid_byte := 0, ticks_buf := [] },
    motor_on := false }

/-- C3 counterexample: inserting a 1-byte (too short) image returns false,
but the recorder's tape size is now 1, not the previous 100 — the rejected
image replaced the previously active tape before validation ran. -/
theorem claim_C3_counterexample :
    (tape_recorder_insert_tape tape_recorder_prev_state 1 (fun _ => 0)).2 = false ∧
    (tape_recorder_insert_tape tape_recorder_prev_state 1 (fun _ => 0)).1.tape.size = 1 ∧
    tape_recorder_prev_state.tape.size = 100 := by
  refine ⟨rfl, ?_, rfl⟩
  rw [show (tape_recorder_insert_tape tape_recorder_prev_state 1 (fun _ => 0)).1.tape
      = { size := 1,
          data := memcpy_prefix tape_recorder_prev_state.tape.data (fun _ => 0) 1 }
    from read_tape_info_tape _]

/-- C3 (amended): on any validation failure `tape_recorder_insert_tape`
returns false, but the rejected image has already been copied over the tape
(size and data prefix are the new image's); the parsed header metadata is
unchanged only when the failure is the too-short or leading-0xD3 check. -/
theorem claim_C3 :
    ∀ (rec : tape_recorder_t) (k7size : Nat) (k7 : Nat → Nat),
      (tape_recorder_insert_tape rec k7size k7).2 = false →
      (tape_recorder_insert_tape rec k7size k7).1.tape.size = k7size ∧
      (∀ i < k7size, (tape_recorder_insert_tape rec k7size k7).1.tape.data i = k7 i) ∧
      ((k7size < 32 ∨ ∃ i, i < 10 ∧ memcpy_prefix rec.tape.data k7 k7size i ≠ 0xd3) →
        (tape_recorder_insert_tape rec k7size k7).1.tape_info = rec.tape_info) := by
  intro rec k7size k7 _
  have htape : (tape_recorder_insert_tape rec k7size k7).1.tape
      = { size := k7size, data := memcpy_prefix rec.tape.data k7 k7size } :=
    read_tape_info_tape _
  refine ⟨?_, ?_, ?_⟩
  · rw [htape]
  · intro i hi
    rw [htape]
    exact if_pos hi
  · intro hearly
    simp only [tape_recorder_insert_tape, _read_tape_information]
    split
    · rfl
    · next h1 =>
      split
      · next h2 =>
        exfalso
        rcases hearly with hlt | ⟨i, hi10, hbad⟩
        · exact h1 hlt
        · have := List.all_eq_true.mp h2 i (List.mem_range.mpr hi10)
          exact hbad (by exact beq_iff_eq.mp this)
      · rfl

/-- Witness for C3: the too-short insert of the counterexample, through the
amended theorem. -/
theorem claim_C3_witness :
    (tape_recorder_insert_tape tape_recorder_prev_state 1 (fun _ => 0)).1.tape.size = 1 ∧
    (tape_recorder_insert_tape tape_recorder_prev_state 1 (fun _ => 0)).1.tape_info
      = tape_recorder_prev_state.tape_info :=
  have h := claim_C3 tape_recorder_prev_state 1 (fun _ => 0) rfl
  ⟨h.1, h.2.2 (Or.inl (by decide))⟩

theorem shl8_lor_eq (lo hi : Nat) (hlo : lo < 256) :
    (hi <<< 8) ||| lo = lo + 256 * hi := by
  rw [Nat.lor_comm, lor_shiftLeft_eq_add hi (show lo < 2 ^ 8 from hlo), Nat.shiftLeft_eq]
  ring

/-- C7: a well-formed image (0xD3 preamble, 0xD6 trailer, total size at
least 32 + declared length + 10) inserts successfully and every parsed
metadata field equals the corresponding header bytes (16-bit fields
little-endian); any size below 32 + declared length + 10 makes the insert
fail, whichever of the three boundary checks fires. -/
theorem claim_C7 :
    ∀ (rec : tape_recorder_t) (k7size : Nat) (k7 : Nat → Nat),
      (∀ i, k7 i < 256) →
      (∀ i < 10, k7 i = 0xd3) →
      (∀ i < 10, k7 (32 + i) = 0xd6) →
      32 + (k7 28 + 256 * k7 29) + 10 ≤ k7size →
      k7size ≤ VG5000_MAX_TAPE_DATA_SIZE →
      ((tape_recorder_insert_tape rec k7size k7).2 = true ∧
        (tape_recorder_insert_tape rec k7size k7).1.tape_info.format = k7 10 ∧
        (tape_recorder_insert_tape rec k7size k7).1.tape_info.name
          = [k7 11, k7 12, k7 13, k7 14, k7 15, k7 16] ∧
        (tape_recorder_insert_tape rec k7size k7).1.tape_info.version = k7 17 ∧
        (tape_recorder_insert_tape rec k7size k7).1.tape_info.start_line
          = [k7 18, k7 19, k7 20, k7 21, k7 22] ∧
        (tape_recorder_insert_tape rec k7size k7).1.tape_info.protection = k7 23 ∧
        (tape_recorder_insert_tape rec k7size k7).1.tape_info.check_pos
          = k7 24 + 256 * k7 25 ∧
        (tape_recorder_insert_tape rec k7size k7).1.tape_info.start_adr
          = k7 26 + 256 * k7 27 ∧
        (tape_recorder_insert_tape rec k7size k7).1.tape_info.data_length
          = k7 28 + 256 * k7 29 ∧
        (tape_recorder_insert_tape rec k7size k7).1.tape_info.checksum
          = k7 30 + 256 * k7 31) ∧
      (∀ t, t < 32 + (k7 28 + 256 * k7 29) + 10 →
        (tape_recorder_insert_tape rec t k7).2 = false) := by
  intro rec k7size k7 hbytes hd3 hd6 hlen hmax
  have h42 : 42 ≤ k7size := by omega
  have hdata : ∀ i, i < k7size → memcpy_prefix rec.tape.data k7 k7size i = k7 i :=
    fun i hi => if_pos hi
  constructor
  · simp only [tape_recorder_insert_tape, _read_tape_information]
    have hall3 : (List.range 10).all
        (fun i => memcpy_prefix rec.tape.data k7 k7size i == 0xd3) = true := by
      rw [List.all_eq_true]
      intro i hi
      rw [List.mem_range] at hi
      rw [hdata i (by omega)]
      exact beq_iff_eq.mpr (hd3 i hi)
    have hall6 : (List.range 10).all
        (fun i => memcpy_prefix rec.tape.data k7 k7size (32 + i) == 0xd6) = true := by
      rw [List.all_eq_true]
      intro i hi
      rw [List.mem_range] at hi
      rw [hdata (32 + i) (by omega)]
      exact beq_iff_eq.mpr (hd6 i hi)
    rw [if_neg (by omega : ¬ k7size < 32), if_pos hall3, if_pos hall6,
      hdata 29 (by omega), hdata 28 (by omega), shl8_lor_eq _ _ (hbytes 28),
      if_neg (by omega : ¬ k7size < 32 + (k7 28 + 256 * k7 29) + 10)]
    refine ⟨rfl, hdata 10 (by omega), ?_, hdata 17 (by omega), ?_, hdata 23 (by omega),
      ?_, ?_, ?_, ?_⟩
    · rw [hdata 11 (by omega), hdata 12 (by omega), hdata 13 (by omega),
        hdata 14 (by omega), hdata 15 (by omega), hdata 16 (by omega)]
    · rw [hdata 18 (by omega), hdata 19 (by omega), hdata 20 (by omega),
        hdata 21 (by omega), hdata 22 (by omega)]
    · rw [hdata 25 (by omega), hdata 24 (by omega), shl8_lor_eq _ _ (hbytes 24)]
    · rw [hdata 27 (by omega), hdata 26 (by omega), shl8_lor_eq _ _ (hbytes 26)]
    · rfl
    · rw [hdata 31 (by omega), hdata 30 (by omega), shl8_lor_eq _ _ (hbytes 30)]
  · intro t ht
    have hdt : ∀ i, i < t → memcpy_prefix rec.tape.data k7 t i = k7 i :=
      fun i hi => if_pos hi
    by_cases h32 : t < 32
    · simp only [tape_recorder_insert_tape, _read_tape_information]
      rw [if_pos h32]
    · simp only [tape_recorder_insert_tape, _read_tape_information]
      have hall3t : (List.range 10).all
          (fun i => memcpy_prefix rec.tape.data k7 t i == 0xd3) = true := by
        rw [List.all_eq_true]
        intro i hi
        rw [List.mem_range] at hi
        rw [hdt i (by omega)]
        exact beq_iff_eq.mpr (hd3 i hi)
      rw [if_neg h32, if_pos hall3t]
      split
      · rw [hdt 29 (by omega), hdt 28 (by omega), shl8_lor_eq _ _ (hbytes 28),
          if_pos (show t < 32 + (k7 28 + 256 * k7 29) + 10 from ht)]
      · rfl

/-- A concrete well-formed 45-byte tape image: 0xD3 preamble, format 1,
name "AAAAAA", version 2, start line "00000", protection 1, check position
0x1234, start address 0x4700, data length 3, checksum 0x5678, 0xD6 trailer,
3 payload bytes. -/
def c7_tape_image : Nat → Nat := fun i =>
  if i < 10 then 0xd3
  else if i = 10 then 1
  else if i ≤ 16 then 65
  else if i = 17 then 2
  else if i ≤ 22 then 48
  else if i = 23 then 1
  else if i = 24 then 0x34
  else if i = 25 then 0x12
  else if i = 26 then 0x00
  else if i = 27 then 0x47
  else if i = 28 then 3
  else if i = 29 then 0
  else if i = 30 then 0x78
  else if i = 31 then 0x56
  else if i < 42 then 0xd6
  else 0xAA

theorem c7_tape_image_bytes : ∀ i, c7_tape_image i < 256 := by
  intro i
  by_cases h : i < 42
  · interval_cases i <;> decide
  · show (if i < 10 then 0xd3 else if i = 10 then 1 else if i ≤ 16 then 65 else if i = 17 then 2 else if i ≤ 22 then 48 else if i = 23 then 1 else if i = 24 then 0x34 else if i = 25 then 0x12 else if i = 26 then 0x00 else if i = 27 then 0x47 else if i = 28 then 3 else if i = 29 then 0 else if i = 30 then 0x78 else if i = 31 then 0x56 else if i < 42 then 0xd6 else 0xAA) < 256
    repeat rw [if_neg (by omega)]
    decide

/-- Witness for C7: the 45-byte image inserts successfully with the parsed
check position and data length matching, and its 41-byte truncation fails. -/
theorem claim_C7_witness :
    (tape_recorder_insert_tape tape_recorder_prev_state 45 c7_tape_image).2 = true ∧
    (tape_recorder_insert_tape tape_recorder_prev_state 45 c7_tape_image).1.tape_info.check_pos
      = 0x1234 ∧
    (tape_recorder_insert_tape tape_recorder_prev_state 45 c7_tape_image).1.tape_info.data_length
      = 3 ∧
    (tape_recorder_insert_tape tape_recorder_prev_state 41 c7_tape_image).2 = false := by
  have h := claim_C7 tape_recorder_prev_state 45 c7_tape_image c7_tape_image_bytes
    (by decide) (by decide) (by decide) (by decide)
  refine ⟨h.1.1, ?_, ?_, h.2 41 (by decide)⟩
  · rw [h.1.2.2.2.2.2.2.1]
    decide
  · rw [h.1.2.2.2.2.2.2.2.2.1]
    decide
